import Mathlib

/-!
Shallow embedding of the mamacare profile-synchronization core
(`src/app/page.tsx`, first component definition, together with
`src/lib/firebase.ts`).  The page module contains two concatenated
revisions of the component; the first revision (the one with the
`reflections` field, lines 1-870) is the one embedded here.

Pure functions of the source become Lean functions; the React state
(`user`, `profile`, `saving`, `statusMessage`) becomes an explicit
`AppState` record, and every remote-store call (`setDoc`) becomes a
`WriteOp` event collected in a list.  Each mutation handler awaits
`persistProfile`, whose body runs synchronously up to the `setDoc`
call, so a mutation is modelled as a `MutationResult`: the state
visible before the remote write resolves (`pending`), the write(s)
issued, and the state after resolution (`final`).
-/

/-- `type SymptomSeverity = "mild" | "moderate" | "strong"` -/
inductive SymptomSeverity where
  | mild
  | moderate
  | strong
deriving Repr, DecidableEq

/-- `type SymptomEntry` of `page.tsx`. -/
structure SymptomEntry where
  id : String
  symptom : String
  severity : SymptomSeverity
  notes : String
  loggedAt : String
deriving Repr, DecidableEq

/-- `type ReflectionEntry` of `page.tsx`. -/
structure ReflectionEntry where
  id : String
  text : String
  timestamp : String
deriving Repr, DecidableEq

/-- `type MamacareProfile`.  `reflections?` is an optional field in the
source, hence `Option` here; the TS annotation `ReminderFrequency = 1 | 2 | 4`
is compile-time only — at runtime any number is stored — hence `Nat`. -/
structure MamacareProfile where
  pregnancyWeek : Int
  symptoms : List SymptomEntry
  reminderFrequencyWeeks : Nat
  customNotes : String
  reflections : Option (List ReflectionEntry)
deriving Repr, DecidableEq

/-- `const defaultProfile` (line 49 of `page.tsx`). -/
def defaultProfile : MamacareProfile :=
  { pregnancyWeek := 4
    symptoms := []
    reminderFrequencyWeeks := 4
    customNotes := ""
    reflections := some [] }

/-- JavaScript `Math.round`: half-up, i.e. `⌊x + 1/2⌋`. -/
def mathRound (q : ℚ) : ℤ := ⌊q + 1 / 2⌋

/-- `trimesterKey` useMemo: week ≤ 13 → first, ≤ 27 → second, else third. -/
def trimesterKey (p : MamacareProfile) : String :=
  if p.pregnancyWeek ≤ 13 then "first"
  else if p.pregnancyWeek ≤ 27 then "second"
  else "third"

/-- `pregnancyProgress = Math.min(100, Math.round((profile.pregnancyWeek / 40) * 100))`. -/
def pregnancyProgress (p : MamacareProfile) : ℤ :=
  min 100 (mathRound ((p.pregnancyWeek : ℚ) / 40 * 100))

/-- `latestSymptoms = profile.symptoms.slice(0, 4)`. -/
def latestSymptoms (p : MamacareProfile) : List SymptomEntry :=
  p.symptoms.take 4

/-- `activeSymptomKeys`: deduplicated symptom kinds of the four most
recent entries (`Array.from(new Set(latestSymptoms.map(i => i.symptom)))`). -/
def activeSymptomKeys (p : MamacareProfile) : List String :=
  ((latestSymptoms p).map (fun item => item.symptom)).dedup

/-- JavaScript `String.prototype.trim`, modelled over the character list
(drop leading and trailing whitespace).  Modelled explicitly because the
source relies on `reflectionText.trim()` only to test blankness. -/
def jsTrim (s : String) : String :=
  ⟨((s.data.dropWhile Char.isWhitespace).reverse.dropWhile Char.isWhitespace).reverse⟩

/-- `Partial<MamacareProfile>` — the partial updates handed to
`persistProfile`; absent fields are `none`. -/
structure ProfileUpdate where
  pregnancyWeek : Option Int := none
  symptoms : Option (List SymptomEntry) := none
  reminderFrequencyWeeks : Option Nat := none
  customNotes : Option String := none
  reflections : Option (List ReflectionEntry) := none
deriving Repr, DecidableEq

/-- A remote-store call issued by the component.  `mergeWrite` is
`setDoc(ref, \x7b ...updates, updatedAt: serverTimestamp() \x7d, \x7b merge: true \x7d)`
(the `updatedAt` flag records that the server timestamp field is included);
`initialize` is `setDoc(ref, \x7b ...defaultProfile, uid, createdAt: serverTimestamp() \x7d)`. -/
inductive WriteOp where
  | mergeWrite (uid : String) (updates : ProfileUpdate) (updatedAt : Bool)
  | createDoc (uid : String) (profile : MamacareProfile) (createdAt : Bool)
deriving Repr, DecidableEq

/-- The React state of the component that the synchronization core touches:
`user`, `profile`, `saving`, `statusMessage`. -/
structure AppState where
  user : Option String
  profile : MamacareProfile
  saving : Bool
  statusMessage : Option String
deriving Repr, DecidableEq

/-- Outcome of one mutation handler: `pending` is the state after the
synchronous part of the handler (visible before the remote write resolves),
`writes` the remote calls issued, `final` the state after the awaited
`persistProfile` resolves. -/
structure MutationResult where
  pending : AppState
  writes : List WriteOp
  final : AppState
deriving Repr, DecidableEq

/-- `persistProfile` (lines 205-217): no-op when `!db || !user`; otherwise
sets `saving`/status, issues one merge write with the given updates plus
`updatedAt: serverTimestamp()`, then clears `saving` and reports "Saved". -/
def persistProfile (db : Bool) (updates : ProfileUpdate) (s : AppState) : MutationResult :=
  match s.user with
  | none => ⟨s, [], s⟩
  | some uid =>
    if db then
      let pending := { s with saving := true, statusMessage := some "Syncing to Firestore…" }
      ⟨pending, [WriteOp.mergeWrite uid updates true],
        { pending with saving := false, statusMessage := some "Saved" }⟩
    else ⟨s, [], s⟩

/-- `updateWeek` (lines 265-268): optimistically set `pregnancyWeek`, then
persist just that field.  No clamping is performed. -/
def updateWeek (db : Bool) (week : Int) (s : AppState) : MutationResult :=
  let s1 := { s with profile := { s.profile with pregnancyWeek := week } }
  persistProfile db { pregnancyWeek := some week } s1

/-- The symptom form draft (`symptomDraft` state). -/
structure SymptomDraft where
  symptom : String
  severity : SymptomSeverity
  notes : String
deriving Repr, DecidableEq

/-- The `newEntry` built by `handleSymptomSubmit`: `notes` falls back to
the sentinel when the draft notes are the empty string
(`symptomDraft.notes || "No additional notes"`); `id` and `loggedAt` stand
for the values of `makeId()` and `new Date().toISOString()` at call time. -/
def mkSymptomEntry (draft : SymptomDraft) (id loggedAt : String) : SymptomEntry :=
  { id := id
    symptom := draft.symptom
    severity := draft.severity
    notes := if draft.notes = "" then "No additional notes" else draft.notes
    loggedAt := loggedAt }

/-- `handleSymptomSubmit` (lines 270-283): prepend the new entry, truncate
to 20 (`[newEntry, ...profile.symptoms].slice(0, 20)`), set it
optimistically, persist just `symptoms`. -/
def handleSymptomSubmit (db : Bool) (draft : SymptomDraft) (id loggedAt : String)
    (s : AppState) : MutationResult :=
  let newEntry := mkSymptomEntry draft id loggedAt
  let updated := (newEntry :: s.profile.symptoms).take 20
  let s1 := { s with profile := { s.profile with symptoms := updated } }
  persistProfile db { symptoms := some updated } s1

/-- `handleReminderChange` (lines 285-288). -/
def handleReminderChange (db : Bool) (value : Nat) (s : AppState) : MutationResult :=
  let s1 := { s with profile := { s.profile with reminderFrequencyWeeks := value } }
  persistProfile db { reminderFrequencyWeeks := some value } s1

/-- The inline custom-notes `onChange` handler (lines 675-679): set
`customNotes` optimistically, persist just that field. -/
def setCustomNotes (db : Bool) (note : String) (s : AppState) : MutationResult :=
  let s1 := { s with profile := { s.profile with customNotes := note } }
  persistProfile db { customNotes := some note } s1

/-- `handleSaveReflection` (lines 290-306): return early when the text is
blank after trimming (`if (!reflectionText.trim()) return`); otherwise
append a new entry (`[...(profile.reflections || []), newReflection]`) and
persist just `reflections`.  `id` and `timestamp` stand for `makeId()` and
`new Date().toISOString()` at call time. -/
def handleSaveReflection (db : Bool) (text id timestamp : String)
    (s : AppState) : MutationResult :=
  if jsTrim text = "" then ⟨s, [], s⟩
  else
    let newReflection : ReflectionEntry := { id := id, text := text, timestamp := timestamp }
    let updatedReflections := (s.profile.reflections.getD []) ++ [newReflection]
    let s1 := { s with profile := { s.profile with reflections := some updatedReflections } }
    persistProfile db { reflections := some updatedReflections } s1

/-- A remote profile document as `snapshot.data()` may return it: any of
the profile fields may be absent. -/
structure RemoteDoc where
  pregnancyWeek : Option Int := none
  symptoms : Option (List SymptomEntry) := none
  reminderFrequencyWeeks : Option Nat := none
  customNotes : Option String := none
  reflections : Option (List ReflectionEntry) := none
deriving Repr, DecidableEq

/-- The field-by-field defaulting `setProfile` call inside `loadProfile`
(lines 190-196): each missing field is replaced with the default. -/
def hydrateProfile (data : RemoteDoc) : MamacareProfile :=
  { pregnancyWeek := data.pregnancyWeek.getD defaultProfile.pregnancyWeek
    symptoms := data.symptoms.getD []
    reminderFrequencyWeeks := data.reminderFrequencyWeeks.getD defaultProfile.reminderFrequencyWeeks
    customNotes := data.customNotes.getD ""
    reflections := some (data.reflections.getD []) }

/-- `loadProfile` (lines 182-203): no-op when `!db`; when the snapshot
exists, hydrate the profile from it; otherwise initialize the remote
document with `\x7b ...defaultProfile, uid, createdAt: serverTimestamp() \x7d`.
Either way the status message ends cleared. -/
def loadProfile (db : Bool) (uid : String) (remote : Option RemoteDoc)
    (s : AppState) : AppState × List WriteOp :=
  if db then
    match remote with
    | some data => ({ s with profile := hydrateProfile data, statusMessage := none }, [])
    | none => ({ s with statusMessage := none }, [WriteOp.createDoc uid defaultProfile true])
  else (s, [])

/-- The `onAuthStateChanged` callback (lines 225-233): record the new
user; when present, load the profile; when absent, reset the profile to
defaults (no remote call). -/
def onAuthChange (db : Bool) (authUser : Option String) (remote : Option RemoteDoc)
    (s : AppState) : AppState × List WriteOp :=
  match authUser with
  | some uid => loadProfile db uid remote { s with user := some uid }
  | none => ({ s with user := none, profile := defaultProfile }, [])

/-- Iterate `handleSymptomSubmit` over a sequence of (draft, id, loggedAt)
calls, threading the resolved state. -/
def runSymptomCalls (db : Bool) (calls : List (SymptomDraft × String × String))
    (s : AppState) : AppState :=
  calls.foldl (fun st c => (handleSymptomSubmit db c.1 c.2.1 c.2.2 st).final) s

/-- A signed-out state holding the default profile. -/
def signedOutState : AppState :=
  { user := none, profile := defaultProfile, saving := false, statusMessage := none }

/-- A signed-in, synced state for user "u1" holding the default profile. -/
def syncedState : AppState :=
  { user := some "u1", profile := defaultProfile, saving := false, statusMessage := none }

/-- The default profile with a given pregnancy week. -/
def profileWithWeek (w : Int) : MamacareProfile :=
  { defaultProfile with pregnancyWeek := w }

/-- A remote document in which only `customNotes` is present. -/
def partialDoc : RemoteDoc :=
  { customNotes := some "hi" }

/-! ## Helper lemmas -/

theorem persistProfile_profile (db : Bool) (u : ProfileUpdate) (s : AppState) :
    (persistProfile db u s).pending.profile = s.profile ∧
    (persistProfile db u s).final.profile = s.profile := by
  rcases s with ⟨user, p, sv, m⟩
  cases user <;> cases db <;> simp [persistProfile]

theorem persistProfile_noUser (db : Bool) (u : ProfileUpdate) (s : AppState)
    (h : s.user = none) : persistProfile db u s = ⟨s, [], s⟩ := by
  unfold persistProfile
  rw [h]

theorem persistProfile_someUser (u : ProfileUpdate) (s : AppState) (uid : String)
    (h : s.user = some uid) :
    persistProfile true u s
      = ⟨{ s with saving := true, statusMessage := some "Syncing to Firestore…" },
         [WriteOp.mergeWrite uid u true],
         { s with saving := false, statusMessage := some "Saved" }⟩ := by
  unfold persistProfile
  rw [h]
  rfl

theorem pregnancyProgress_eq (p : MamacareProfile) :
    pregnancyProgress p = min 100 ((5 * p.pregnancyWeek + 1) / 2) := by
  unfold pregnancyProgress mathRound
  congr 1
  have h : (p.pregnancyWeek : ℚ) / 40 * 100 + 1 / 2
      = ((5 * p.pregnancyWeek + 1 : ℤ) : ℚ) / ((2 : ℕ) : ℚ) := by
    push_cast
    ring
  rw [h, Rat.floor_intCast_div_natCast]
  norm_num

/-! ## Claim theorems -/

/-- Claim C7: the derived trimester classification is "first" when
`pregnancyWeek ≤ 13`, "second" when `13 < pregnancyWeek ≤ 27`, and
"third" otherwise. -/
theorem trimester_classification (p : MamacareProfile) :
    (p.pregnancyWeek ≤ 13 → trimesterKey p = "first") ∧
    (13 < p.pregnancyWeek → p.pregnancyWeek ≤ 27 → trimesterKey p = "second") ∧
    (27 < p.pregnancyWeek → trimesterKey p = "third") := by
  unfold trimesterKey
  refine ⟨fun h => if_pos h, fun h1 h2 => ?_, fun h => ?_⟩
  · rw [if_neg (by omega), if_pos h2]
  · rw [if_neg (by omega), if_neg (by omega)]

/-- Witness for C7: weeks 12, 20 and 30 classify as first, second and
third respectively. -/
theorem trimester_classification_witness :
    trimesterKey (profileWithWeek 12) = "first" ∧
    trimesterKey (profileWithWeek 20) = "second" ∧
    trimesterKey (profileWithWeek 30) = "third" :=
  ⟨(trimester_classification (profileWithWeek 12)).1 (by decide),
   (trimester_classification (profileWithWeek 20)).2.1 (by decide) (by decide),
   (trimester_classification (profileWithWeek 30)).2.2 (by decide)⟩

/-- Claim C8: the completion percentage is `min(100, round(week/40*100))`,
monotone non-decreasing in the pregnancy week, and equal to 100 for every
week ≥ 40. -/
theorem progress_monotone_clamped :
    (∀ p : MamacareProfile,
      pregnancyProgress p = min 100 (mathRound ((p.pregnancyWeek : ℚ) / 40 * 100))) ∧
    (∀ p q : MamacareProfile, p.pregnancyWeek ≤ q.pregnancyWeek →
      pregnancyProgress p ≤ pregnancyProgress q) ∧
    (∀ p : MamacareProfile, 40 ≤ p.pregnancyWeek → pregnancyProgress p = 100) := by
  refine ⟨fun p => rfl, fun p q h => ?_, fun p h => ?_⟩
  · rw [pregnancyProgress_eq, pregnancyProgress_eq]
    omega
  · rw [pregnancyProgress_eq]
    omega

/-- Witness for C8: the percentage at week 12 is at most the one at week
30, and week 41 is clamped to 100. -/
theorem progress_monotone_clamped_witness :
    pregnancyProgress (profileWithWeek 12) ≤ pregnancyProgress (profileWithWeek 30) ∧
    pregnancyProgress (profileWithWeek 41) = 100 :=
  ⟨progress_monotone_clamped.2.1 (profileWithWeek 12) (profileWithWeek 30) (by decide),
   progress_monotone_clamped.2.2 (profileWithWeek 41) (by decide)⟩

/-- Claim C6: when "u1" signs in and no remote document exists, the
synchronizer issues an `initialize` write carrying the default profile
(`pregnancyWeek = 4`, `reminderFrequencyWeeks = 4`) and a creation
timestamp, and the session ends with the status message cleared. -/
theorem signIn_writes_default_doc (s : AppState) :
    onAuthChange true (some "u1") none s
      = ({ s with user := some "u1", statusMessage := none },
         [WriteOp.createDoc "u1" defaultProfile true]) ∧
    defaultProfile.pregnancyWeek = 4 ∧ defaultProfile.reminderFrequencyWeeks = 4 :=
  ⟨rfl, rfl, rfl⟩

/-- Claim C9: when the identity becomes absent, from any state the
canonical profile is reset to the defaults and no remote write is
issued. -/
theorem signOut_resets_profile (db : Bool) (remote : Option RemoteDoc) (s : AppState) :
    onAuthChange db none remote s
      = ({ s with user := none, profile := defaultProfile }, []) :=
  rfl

/-- Claim C10: loading an existing remote document fills every missing
field with its default, so the resulting profile is fully populated. -/
theorem load_hydrates_missing_fields (uid : String) (s : AppState) (d : RemoteDoc) :
    (loadProfile true uid (some d) s).1.profile = hydrateProfile d ∧
    (d.pregnancyWeek = none → (hydrateProfile d).pregnancyWeek = defaultProfile.pregnancyWeek) ∧
    (∀ w, d.pregnancyWeek = some w → (hydrateProfile d).pregnancyWeek = w) ∧
    (d.symptoms = none → (hydrateProfile d).symptoms = []) ∧
    (∀ l, d.symptoms = some l → (hydrateProfile d).symptoms = l) ∧
    (d.reminderFrequencyWeeks = none →
      (hydrateProfile d).reminderFrequencyWeeks = defaultProfile.reminderFrequencyWeeks) ∧
    (∀ n, d.reminderFrequencyWeeks = some n → (hydrateProfile d).reminderFrequencyWeeks = n) ∧
    (d.customNotes = none → (hydrateProfile d).customNotes = "") ∧
    (∀ t, d.customNotes = some t → (hydrateProfile d).customNotes = t) ∧
    (d.reflections = none → (hydrateProfile d).reflections = some []) ∧
    (∀ l, d.reflections = some l → (hydrateProfile d).reflections = some l) ∧
    (hydrateProfile d).reflections.isSome = true := by
  refine ⟨rfl, fun h => ?_, fun w h => ?_, fun h => ?_, fun l h => ?_, fun h => ?_,
    fun n h => ?_, fun h => ?_, fun t h => ?_, fun h => ?_, fun l h => ?_,
    by simp [hydrateProfile]⟩ <;>
    simp [hydrateProfile, h]

/-- Witness for C10: a document carrying only `customNotes` hydrates to
default week, the given notes, and an empty (but present) reflections
list. -/
theorem load_hydrates_missing_fields_witness :
    (hydrateProfile partialDoc).pregnancyWeek = defaultProfile.pregnancyWeek ∧
    (hydrateProfile partialDoc).customNotes = "hi" ∧
    (hydrateProfile partialDoc).reflections = some [] := by
  have h := load_hydrates_missing_fields "u1" syncedState partialDoc
  exact ⟨h.2.1 rfl, h.2.2.2.2.2.2.2.2.1 "hi" rfl, h.2.2.2.2.2.2.2.2.2.1 rfl⟩

theorem take20_append (xs ys : List SymptomEntry) :
    (xs ++ ys.take 20).take 20 = (xs ++ ys).take 20 := by
  rw [List.take_append_eq_append_take]
  rw [List.take_take]
  rw [List.take_append_eq_append_take]
  congr 1
  congr 1
  omega

theorem handleSymptomSubmit_final_symptoms (db : Bool) (draft : SymptomDraft)
    (id t : String) (s : AppState) :
    (handleSymptomSubmit db draft id t s).final.profile.symptoms
      = (mkSymptomEntry draft id t :: s.profile.symptoms).take 20 := by
  simp only [handleSymptomSubmit]
  rw [(persistProfile_profile db _ _).2]

/-- Claim C1: iterating `handleSymptomSubmit` keeps the symptom list at
most 20 long and makes it exactly the most recent 20 entries, newest
first: the entries of the calls in reverse call order, followed by the
prior entries, truncated to 20. -/
theorem symptoms_bounded_mostRecentFirst (db : Bool)
    (calls : List (SymptomDraft × String × String)) (s : AppState)
    (h : s.profile.symptoms.length ≤ 20) :
    (runSymptomCalls db calls s).profile.symptoms.length ≤ 20 ∧
    (runSymptomCalls db calls s).profile.symptoms
      = ((calls.map fun c => mkSymptomEntry c.1 c.2.1 c.2.2).reverse
          ++ s.profile.symptoms).take 20 := by
  induction calls generalizing s with
  | nil =>
    exact ⟨h, by simp [runSymptomCalls, List.take_of_length_le h]⟩
  | cons c cs ih =>
    have hstep := handleSymptomSubmit_final_symptoms db c.1 c.2.1 c.2.2 s
    have h1 : (handleSymptomSubmit db c.1 c.2.1 c.2.2 s).final.profile.symptoms.length ≤ 20 := by
      rw [hstep]
      simp [List.length_take]
    have hrun : runSymptomCalls db (c :: cs) s
        = runSymptomCalls db cs (handleSymptomSubmit db c.1 c.2.1 c.2.2 s).final := rfl
    have hih := ih (handleSymptomSubmit db c.1 c.2.1 c.2.2 s).final h1
    refine ⟨by rw [hrun]; exact hih.1, ?_⟩
    rw [hrun, hih.2, hstep, take20_append]
    congr 1
    simp [List.append_assoc]

/-- Witness for C1: one symptom call starting from the synced default
state leaves at most 20 entries, equal to the single new entry. -/
theorem symptoms_bounded_mostRecentFirst_witness :
    (runSymptomCalls true [(⟨"nausea", SymptomSeverity.mild, ""⟩, "i1", "t1")]
        syncedState).profile.symptoms.length ≤ 20 ∧
    (runSymptomCalls true [(⟨"nausea", SymptomSeverity.mild, ""⟩, "i1", "t1")]
        syncedState).profile.symptoms
      = (([(⟨"nausea", SymptomSeverity.mild, ""⟩, "i1", "t1")].map
          fun c => mkSymptomEntry c.1 c.2.1 c.2.2).reverse
            ++ syncedState.profile.symptoms).take 20 :=
  symptoms_bounded_mostRecentFirst true
    [(⟨"nausea", SymptomSeverity.mild, ""⟩, "i1", "t1")] syncedState (by decide)

/-- Claim C4: saving a reflection is a no-op (state untouched, no write
issued) when the text is blank after trimming; otherwise it appends one
new entry carrying the identifier and timestamp generated at call time. -/
theorem saveReflection_blank_noop_else_appends (db : Bool) (text id t : String)
    (s : AppState) :
    (jsTrim text = "" → handleSaveReflection db text id t s = ⟨s, [], s⟩) ∧
    (jsTrim text ≠ "" →
      (handleSaveReflection db text id t s).pending.profile.reflections
          = some ((s.profile.reflections.getD []) ++ [⟨id, text, t⟩]) ∧
      (handleSaveReflection db text id t s).final.profile.reflections
          = some ((s.profile.reflections.getD []) ++ [⟨id, text, t⟩])) := by
  constructor
  · intro h
    simp [handleSaveReflection, h]
  · intro h
    unfold handleSaveReflection
    rw [if_neg h]
    exact ⟨by rw [(persistProfile_profile db _ _).1], by rw [(persistProfile_profile db _ _).2]⟩

/-- Witness for C4: whitespace-only text is a no-op; "hello" appends the
new entry. -/
theorem saveReflection_blank_noop_else_appends_witness :
    handleSaveReflection true "   " "i9" "t9" syncedState
        = ⟨syncedState, [], syncedState⟩ ∧
    (handleSaveReflection true "hello" "i9" "t9" syncedState).final.profile.reflections
        = some ((syncedState.profile.reflections.getD []) ++ [⟨"i9", "hello", "t9"⟩]) :=
  ⟨(saveReflection_blank_noop_else_appends true "   " "i9" "t9" syncedState).1 (by decide),
   ((saveReflection_blank_noop_else_appends true "hello" "i9" "t9" syncedState).2
      (by decide)).2⟩

/-- Counterexample to C5 as stated: with no identity present,
`updateWeek 25` issues no remote write but does change the canonical
profile (week 4 becomes 25), so the attempt is not a no-op. -/
theorem signedOut_mutation_not_noop_counterexample :
    (updateWeek true 25 signedOutState).writes = [] ∧
    (updateWeek true 25 signedOutState).final.profile.pregnancyWeek = 25 ∧
    signedOutState.profile.pregnancyWeek = 4 ∧
    (updateWeek true 25 signedOutState).final.profile ≠ signedOutState.profile := by
  decide

/-- Claim C5 as amended: every mutation attempted while signed out issues
no remote write, but the optimistic local update is still applied (shown
for `updateWeek`: the stored week becomes the given one). -/
theorem signedOut_mutations_write_nothing (db : Bool) (s : AppState)
    (h : s.user = none) :
    (∀ week, (updateWeek db week s).writes = [] ∧
      (updateWeek db week s).final.profile.pregnancyWeek = week) ∧
    (∀ draft id t, (handleSymptomSubmit db draft id t s).writes = []) ∧
    (∀ v, (handleReminderChange db v s).writes = []) ∧
    (∀ note, (setCustomNotes db note s).writes = []) ∧
    (∀ text id t, (handleSaveReflection db text id t s).writes = []) := by
  rcases s with ⟨u, p, sv, m⟩
  obtain rfl : u = none := h
  refine ⟨fun week => ?_, fun draft id t => ?_, fun v => ?_, fun note => ?_,
    fun text id t => ?_⟩
  · exact ⟨rfl, rfl⟩
  · rfl
  · rfl
  · rfl
  · unfold handleSaveReflection
    split
    · rfl
    · rfl

/-- Witness for amended C5: signed out, `updateWeek 30` writes nothing
remotely and stores 30 locally. -/
theorem signedOut_mutations_write_nothing_witness :
    (updateWeek true 30 signedOutState).writes = [] ∧
    (updateWeek true 30 signedOutState).final.profile.pregnancyWeek = 30 :=
  (signedOut_mutations_write_nothing true signedOutState rfl).1 30

/-- Counterexample to C3 as stated: `updateWeek` performs no clamping, so
the integer input 50 leaves the canonical `pregnancyWeek` at 50, outside
[4, 40]. -/
theorem updateWeek_no_clamp_counterexample :
    (updateWeek true 50 syncedState).final.profile.pregnancyWeek = 50 ∧
    ¬ (4 ≤ (updateWeek true 50 syncedState).final.profile.pregnancyWeek ∧
        (updateWeek true 50 syncedState).final.profile.pregnancyWeek ≤ 40) := by
  decide

/-- Claim C3 as amended: `updateWeek` stores the given integer verbatim
(no clamping), so `pregnancyWeek` stays in [4, 40] whenever the input is
in [4, 40]; all other mutation operations leave `pregnancyWeek`
untouched. -/
theorem updateWeek_stores_given_week (db : Bool) (week : Int) (s : AppState)
    (h4 : 4 ≤ week) (h40 : week ≤ 40) :
    (updateWeek db week s).pending.profile.pregnancyWeek = week ∧
    (updateWeek db week s).final.profile.pregnancyWeek = week ∧
    4 ≤ (updateWeek db week s).final.profile.pregnancyWeek ∧
    (updateWeek db week s).final.profile.pregnancyWeek ≤ 40 ∧
    (∀ draft id t,
      (handleSymptomSubmit db draft id t s).final.profile.pregnancyWeek
        = s.profile.pregnancyWeek) ∧
    (∀ v, (handleReminderChange db v s).final.profile.pregnancyWeek
        = s.profile.pregnancyWeek) ∧
    (∀ note, (setCustomNotes db note s).final.profile.pregnancyWeek
        = s.profile.pregnancyWeek) ∧
    (∀ text id t,
      (handleSaveReflection db text id t s).final.profile.pregnancyWeek
        = s.profile.pregnancyWeek) := by
  have hu : ∀ u : ProfileUpdate, ∀ st : AppState,
      (persistProfile db u st).pending.profile = st.profile ∧
      (persistProfile db u st).final.profile = st.profile :=
    fun u st => persistProfile_profile db u st
  refine ⟨?_, ?_, ?_, ?_, fun draft id t => ?_, fun v => ?_, fun note => ?_,
    fun text id t => ?_⟩
  · rw [show (updateWeek db week s).pending.profile
        = { s.profile with pregnancyWeek := week } from (hu _ _).1]
  · rw [show (updateWeek db week s).final.profile
        = { s.profile with pregnancyWeek := week } from (hu _ _).2]
  · rw [show (updateWeek db week s).final.profile
        = { s.profile with pregnancyWeek := week } from (hu _ _).2]
    exact h4
  · rw [show (updateWeek db week s).final.profile
        = { s.profile with pregnancyWeek := week } from (hu _ _).2]
    exact h40
  · rw [show (handleSymptomSubmit db draft id t s).final.profile
        = { s.profile with symptoms
              := (mkSymptomEntry draft id t :: s.profile.symptoms).take 20 } from (hu _ _).2]
  · rw [show (handleReminderChange db v s).final.profile
        = { s.profile with reminderFrequencyWeeks := v } from (hu _ _).2]
  · rw [show (setCustomNotes db note s).final.profile
        = { s.profile with customNotes := note } from (hu _ _).2]
  · unfold handleSaveReflection
    split
    · rfl
    · rw [(persistProfile_profile db _ _).2]

/-- Witness for amended C3: input 10 is stored and lies inside [4, 40]. -/
theorem updateWeek_stores_given_week_witness :
    (updateWeek true 10 syncedState).final.profile.pregnancyWeek = 10 ∧
    4 ≤ (updateWeek true 10 syncedState).final.profile.pregnancyWeek :=
  ⟨(updateWeek_stores_given_week true 10 syncedState (by decide) (by decide)).2.1,
   (updateWeek_stores_given_week true 10 syncedState (by decide) (by decide)).2.2.1⟩

/-- Claim C2: with the store configured and an identity signed in, each
mutation operation first applies its change to the canonical profile
synchronously (visible in the pending state, before the remote write
resolves), leaves every other profile field unchanged (also after the
write resolves), and issues exactly one merge write carrying only the
changed field plus the update timestamp. -/
theorem mutations_optimistic_then_merge_write (uid : String) (s : AppState)
    (h : s.user = some uid) :
    (∀ week : Int,
      (updateWeek true week s).pending.profile.pregnancyWeek = week ∧
      (updateWeek true week s).pending.profile.symptoms = s.profile.symptoms ∧
      (updateWeek true week s).pending.profile.reminderFrequencyWeeks
        = s.profile.reminderFrequencyWeeks ∧
      (updateWeek true week s).pending.profile.customNotes = s.profile.customNotes ∧
      (updateWeek true week s).pending.profile.reflections = s.profile.reflections ∧
      (updateWeek true week s).final.profile = (updateWeek true week s).pending.profile ∧
      (updateWeek true week s).writes
        = [WriteOp.mergeWrite uid { pregnancyWeek := some week } true]) ∧
    (∀ draft id t,
      (handleSymptomSubmit true draft id t s).pending.profile.symptoms
        = (mkSymptomEntry draft id t :: s.profile.symptoms).take 20 ∧
      (handleSymptomSubmit true draft id t s).pending.profile.pregnancyWeek
        = s.profile.pregnancyWeek ∧
      (handleSymptomSubmit true draft id t s).pending.profile.reminderFrequencyWeeks
        = s.profile.reminderFrequencyWeeks ∧
      (handleSymptomSubmit true draft id t s).pending.profile.customNotes
        = s.profile.customNotes ∧
      (handleSymptomSubmit true draft id t s).pending.profile.reflections
        = s.profile.reflections ∧
      (handleSymptomSubmit true draft id t s).final.profile
        = (handleSymptomSubmit true draft id t s).pending.profile ∧
      (handleSymptomSubmit true draft id t s).writes
        = [WriteOp.mergeWrite uid
            { symptoms := some ((mkSymptomEntry draft id t :: s.profile.symptoms).take 20) }
            true]) ∧
    (∀ v : Nat,
      (handleReminderChange true v s).pending.profile.reminderFrequencyWeeks = v ∧
      (handleReminderChange true v s).pending.profile.pregnancyWeek
        = s.profile.pregnancyWeek ∧
      (handleReminderChange true v s).pending.profile.symptoms = s.profile.symptoms ∧
      (handleReminderChange true v s).pending.profile.customNotes = s.profile.customNotes ∧
      (handleReminderChange true v s).pending.profile.reflections = s.profile.reflections ∧
      (handleReminderChange true v s).final.profile
        = (handleReminderChange true v s).pending.profile ∧
      (handleReminderChange true v s).writes
        = [WriteOp.mergeWrite uid { reminderFrequencyWeeks := some v } true]) ∧
    (∀ note : String,
      (setCustomNotes true note s).pending.profile.customNotes = note ∧
      (setCustomNotes true note s).pending.profile.pregnancyWeek
        = s.profile.pregnancyWeek ∧
      (setCustomNotes true note s).pending.profile.symptoms = s.profile.symptoms ∧
      (setCustomNotes true note s).pending.profile.reminderFrequencyWeeks
        = s.profile.reminderFrequencyWeeks ∧
      (setCustomNotes true note s).pending.profile.reflections = s.profile.reflections ∧
      (setCustomNotes true note s).final.profile = (setCustomNotes true note s).pending.profile ∧
      (setCustomNotes true note s).writes
        = [WriteOp.mergeWrite uid { customNotes := some note } true]) ∧
    (∀ text id t, jsTrim text ≠ "" →
      (handleSaveReflection true text id t s).pending.profile.reflections
        = some ((s.profile.reflections.getD []) ++ [⟨id, text, t⟩]) ∧
      (handleSaveReflection true text id t s).pending.profile.pregnancyWeek
        = s.profile.pregnancyWeek ∧
      (handleSaveReflection true text id t s).pending.profile.symptoms
        = s.profile.symptoms ∧
      (handleSaveReflection true text id t s).pending.profile.reminderFrequencyWeeks
        = s.profile.reminderFrequencyWeeks ∧
      (handleSaveReflection true text id t s).pending.profile.customNotes
        = s.profile.customNotes ∧
      (handleSaveReflection true text id t s).final.profile
        = (handleSaveReflection true text id t s).pending.profile ∧
      (handleSaveReflection true text id t s).writes
        = [WriteOp.mergeWrite uid
            { reflections := some ((s.profile.reflections.getD []) ++ [⟨id, text, t⟩]) }
            true]) := by
  rcases s with ⟨u, p, sv, m⟩
  obtain rfl : u = some uid := h
  refine ⟨fun week => ?_, fun draft id t => ?_, fun v => ?_, fun note => ?_,
    fun text id t hne => ?_⟩
  · exact ⟨rfl, rfl, rfl, rfl, rfl, rfl, rfl⟩
  · exact ⟨rfl, rfl, rfl, rfl, rfl, rfl, rfl⟩
  · exact ⟨rfl, rfl, rfl, rfl, rfl, rfl, rfl⟩
  · exact ⟨rfl, rfl, rfl, rfl, rfl, rfl, rfl⟩
  · unfold handleSaveReflection
    rw [if_neg hne]
    exact ⟨rfl, rfl, rfl, rfl, rfl, rfl, rfl⟩

/-- Witness for C2: on the synced "u1" state, `updateWeek 10` is visible
in the pending state and issues the single merge write for just the week
field. -/
theorem mutations_optimistic_then_merge_write_witness :
    (updateWeek true 10 syncedState).pending.profile.pregnancyWeek = 10 ∧
    (updateWeek true 10 syncedState).writes
      = [WriteOp.mergeWrite "u1" { pregnancyWeek := some 10 } true] := by
  have h := (mutations_optimistic_then_merge_write "u1" syncedState rfl).1 10
  exact ⟨h.1, h.2.2.2.2.2.2⟩
